import Mathlib

/-!
Formal embedding of the snapshot reconciliation engine of the
discord-backup-bot repository (src/utils/database.py, src/utils/backup.py,
src/cogs/backuphandler.py), together with theorems settling the frozen
claims about it.

The sqlite tables are embedded as lists of row structures; each database
method is a Lean function performing the same SELECT / INSERT / UPDATE /
DELETE steps as the Python source, with the unique indexes of `_setup`
enforced at insertion time.  The reconciliation engine (`backup_load_callback`
and its inner helpers `delete_all` and `handle_channels`) is embedded as
state-passing functions producing an operation trace; remote calls
(`delete`, `edit`, `create_role`, `_create_channel`) are modelled by
per-item outcome fields, and an uncaught Python exception is an
`Except.error`.
-/

/-- A row of the `reference_ids` table (database.py `_setup`). -/
structure RefRow where
  old_id : Int
  new_id : Int
  backup_id : String
  guild_id : Int
deriving DecidableEq, Repr

/-- The `reference_ids` table, in rowid (insertion) order. -/
abbrev RefTable := List RefRow

/-- Row predicate of `WHERE backup_id = ? AND old_id = ? AND guild_id = ?`. -/
def refScopeMatch (b : String) (g : Int) (o : Int) (r : RefRow) : Bool :=
  r.backup_id == b && r.old_id == o && r.guild_id == g

/-- Row predicate of the unique index `ref_index` on `(old_id, backup_id)`
(note: the index does not include `guild_id`). -/
def refIndexMatch (b : String) (o : Int) (r : RefRow) : Bool :=
  r.old_id == o && r.backup_id == b

/-- Embedding of `Database.get_reference_id` (database.py lines 264-281): returns the
`new_id` of the first row matching the scope, else the queried id itself. -/
def get_reference_id (tbl : RefTable) (b : String) (g : Int) (ref : Int) : Int :=
  match tbl.find? (refScopeMatch b g ref) with
  | some row => row.new_id
  | none => ref

/-- Embedding of `Database.set_reference_id` (database.py lines 283-315): no-op when
`old_id == new_id`; otherwise UPDATE if a row for the scope exists, else
INSERT.  The INSERT fails with `sqlite3.IntegrityError` when it violates
the unique index `ref_index (old_id, backup_id)`. -/
def set_reference_id (tbl : RefTable) (b : String) (g : Int) (o n : Int) :
    Except String RefTable :=
  if o = n then .ok tbl
  else if tbl.any (refScopeMatch b g o) then
    .ok (tbl.map (fun r =>
      if refScopeMatch b g o r then { r with old_id := o, new_id := n } else r))
  else if tbl.any (refIndexMatch b o) then
    .error "UNIQUE constraint failed: reference_ids.old_id, reference_ids.backup_id"
  else
    .ok (tbl ++ [⟨o, n, b, g⟩])

/-- Embedding of `Database.del_reference_id` (database.py lines 317-337): SELECT for the
scope; if a row is found, DELETE every row of the scope. -/
def del_reference_id (tbl : RefTable) (b : String) (g : Int) (o : Int) : RefTable :=
  if tbl.any (refScopeMatch b g o) then
    tbl.filter (fun r => !(refScopeMatch b g o r))
  else tbl

/-- A row of the `backups` table (database.py `_setup`). -/
structure BackupRow where
  id : String
  guild_channels : String
  guild_roles : String
  guild_rules_channel : Option Int
  guild_public_updates_channel : Option Int
deriving DecidableEq, Repr

/-- A row of the `guild_channels` table (database.py `_setup`). -/
structure GuildChannelRow where
  id : Int
  backup_id : String
  name : String
  nsfw : Bool
  position : Int
  type : Int
  overwrites : String
  permissions_synced : Bool
  category_id : Option Int
  default_auto_archive_duration : Option Int
  default_thread_slowmode_delay : Option Int
  slowmode_delay : Option Int
  bitrate : Option Int
  user_limit : Option Int
  rtc_region : Option String
  video_quality_mode : Option Int
deriving DecidableEq, Repr

/-- A row of the `guild_roles` table (database.py `_setup`). -/
structure GuildRoleRow where
  id : Int
  backup_id : String
  name : String
  permissions : Int
  colour : Option String
  hoist : Bool
  display_icon : Option String
  mentionable : Bool
  position : Int
deriving DecidableEq, Repr

/-- The four tables the `Database` class manages. -/
structure DatabaseState where
  backups : List BackupRow
  guild_channels : List GuildChannelRow
  guild_roles : List GuildRoleRow
  reference_ids : RefTable
deriving DecidableEq, Repr

/-- Embedding of `Database.delete_backup` (database.py lines 252-262): a single
`DELETE FROM backups WHERE id = ?`; no other table is touched. -/
def delete_backup (db : DatabaseState) (backup_id : String) : DatabaseState :=
  { db with backups := db.backups.filter (fun row => !(row.id == backup_id)) }

/-- One permission-overwrite entry as stored in a snapshot channel's
`overwrites` list (backup.py `convert_permissionoverwrite_to_list`):
a target id plus the overwrite's `_values` mapping. -/
structure OverwriteEntry where
  target_id : Int
  overwrites : List (String × Option Bool)
deriving DecidableEq, Repr

/-- A Python channel attribute dict (keys from `CHANNEL_ATTRIBUTE_NAMES`,
backup.py).  An outer `none` means the key is absent from the dict (it was
never set, or was removed by `pop_if_available` / `del`); for the nullable
attributes the inner `Option` is the SQL/JSON null. -/
structure ChannelDict where
  name : Option String
  id : Option Int
  nsfw : Option Bool
  position : Option Int
  type : Option Int
  overwrites : Option (List OverwriteEntry)
  permissions_synced : Option Bool
  category_id : Option (Option Int)
  default_auto_archive_duration : Option (Option Int)
  default_thread_slowmode_delay : Option (Option Int)
  slowmode_delay : Option (Option Int)
  bitrate : Option (Option Int)
  user_limit : Option (Option Int)
  rtc_region : Option (Option String)
  video_quality_mode : Option (Option Int)
deriving DecidableEq, Repr

/-- The empty Python dict `{}` over channel attribute keys
(what `extract_attributes_from_class` returns for `None`). -/
def emptyChannelDict : ChannelDict :=
  ⟨none, none, none, none, none, none, none, none, none, none, none, none, none,
   none, none⟩

/-- The value of a role's `display_icon` dict entry: SQL/JSON null, the
opaque asset key stored at capture time, or the raw image bytes the
restore loads from `assets/<key>.png`. -/
inductive IconVal
  | nullv
  | keyRef (k : String)
  | bytes (k : String)
deriving DecidableEq, Repr

/-- A Python role attribute dict (keys from the role attribute list used by
`Database` and `insert_backup`: name, id, permissions, colour, hoist,
display_icon, mentionable, position).  An outer `none` means the key is
absent from the dict. -/
structure RoleDict where
  name : Option String
  id : Option Int
  permissions : Option Int
  colour : Option (List Int)
  hoist : Option Bool
  display_icon : Option IconVal
  mentionable : Option Bool
  position : Option Int
deriving DecidableEq, Repr

/-- The empty Python dict `{}` over role attribute keys. -/
def emptyRoleDict : RoleDict := ⟨none, none, none, none, none, none, none, none⟩

/-- A remote operation issued by the engine (a network call on the target).
`createChannel` records the `channel_type` argument passed to
`guild._create_channel` (the `CHANNEL_TYPES` lookup, `none` when the type
code is not in the map) together with the `**backup_channel` payload. -/
inductive Op
  | delRole (id : Int)
  | delChannel (id : Int)
  | createRole (newId : Int)
  | editRole (id : Int)
  | editChannel (id : Int)
  | createChannel (channelType : Option Int) (payload : ChannelDict) (newId : Int)
deriving DecidableEq, Repr

/-- Whether an operation is a deletion. -/
def Op.isDelete : Op → Bool
  | .delRole _ => true
  | .delChannel _ => true
  | _ => false

/-- A live role or channel of the target guild as seen by `delete_all`
(backuphandler.py lines 128-176): its id, the predicates the deletion
checks consult, and whether its remote `delete()` call raises
(`exc` is the raised exception's text). -/
structure GuildItem where
  id : Int
  bot_managed : Bool
  assignable : Bool
  integration : Bool
  deleteFails : Bool
  exc : String
deriving DecidableEq, Repr

/-- State threaded through the deletion passes: the `reference_ids` table
and the trace of issued delete calls. -/
structure DelState where
  refs : RefTable
  ops : List Op
deriving DecidableEq, Repr

/-- The inner `delete_all` coroutine of `backup_load_callback`
(backuphandler.py lines 128-176).  For each item: skip it when its id is
`rules_id` or `updates_id`; skip it when a check fails; otherwise remove
its reference entry (`del_reference(item.id)`), then call `item.delete()` —
recorded as `mkOp item.id` — and on an exception return the item and the
exception at once, leaving the rest of the iterable unprocessed. -/
def delete_all (b : String) (g : Int) (rulesId updatesId : Option Int)
    (checks : List (GuildItem → Bool)) (mkOp : Int → Op) :
    DelState → List GuildItem → DelState × Option (Int × String)
  | st, [] => (st, none)
  | st, item :: rest =>
    if rulesId = some item.id ∨ updatesId = some item.id then
      delete_all b g rulesId updatesId checks mkOp st rest
    else if !(checks.all (fun c => c item)) then
      delete_all b g rulesId updatesId checks mkOp st rest
    else
      let st' : DelState :=
        { refs := del_reference_id st.refs b g item.id,
          ops := st.ops ++ [mkOp item.id] }
      if item.deleteFails then (st', some (item.id, item.exc))
      else delete_all b g rulesId updatesId checks mkOp st' rest

/-- Outcome reported by the restore: the early-return failure messages of
the clear phase (each carrying the offending resource id and the raised
exception text, backuphandler.py lines 178-203), or the final
"Loaded Backup." / "Couldn't load Backup." message. -/
inductive RestoreResult
  | clearFailRole (id : Int) (exc : String)
  | clearFailChannel (id : Int) (exc : String)
  | finished (success : Bool)
deriving DecidableEq, Repr

/-- The failure information of a clear-phase result, if any. -/
def RestoreResult.failInfo : RestoreResult → Option (Int × String)
  | .clearFailRole i e => some (i, e)
  | .clearFailChannel i e => some (i, e)
  | .finished _ => none

/-- The deletion-relevant trace of one `backup_load_callback` run: the
delete calls of the optional clear phase, the delete calls of the orphan
cleanup after reconciliation, the final `reference_ids` table and the
reported result. -/
structure RestoreTrace where
  clearOps : List Op
  orphanOps : List Op
  refs : RefTable
  result : RestoreResult
deriving DecidableEq, Repr

/-- The checks of the clear phase's role pass (backuphandler.py
lines 181-189): not the everyone role (`_role.id != guild.id`), not
bot-managed, assignable, not integration-owned. -/
def clearRoleChecks (g : Int) : List (GuildItem → Bool) :=
  [fun r => !(r.id == g), fun r => !r.bot_managed, fun r => r.assignable,
   fun r => !r.integration]

/-- The `if clear_guild:` block of `backup_load_callback` (lines 178-203):
delete all roles (with the clear checks), then all channels (no checks);
on either failure send the failure message and return — `cont`, the rest
of the callback, never runs. -/
def backupLoadClear (b : String) (g : Int) (rulesId updatesId : Option Int)
    (roles channels : List GuildItem) (refs0 : RefTable)
    (cont : DelState → RestoreTrace) : RestoreTrace :=
  let st0 : DelState := { refs := refs0, ops := [] }
  match delete_all b g rulesId updatesId (clearRoleChecks g) Op.delRole st0 roles with
  | (st1, some (i, e)) =>
    { clearOps := st1.ops, orphanOps := [], refs := st1.refs,
      result := .clearFailRole i e }
  | (st1, none) =>
    match delete_all b g rulesId updatesId [] Op.delChannel st1 channels with
    | (st2, some (i, e)) =>
      { clearOps := st2.ops, orphanOps := [], refs := st2.refs,
        result := .clearFailChannel i e }
    | (st2, none) => cont st2

/-- The orphan-cleanup tail of `backup_load_callback` (lines 555-569),
run after the reconciliation phases: delete every live role not in
`all_used_roles` and not the everyone role (the returned failure is
discarded), then — only when both channel groups succeeded — delete every
live channel not in `all_backup_channels`; finally report the outcome.
`rolesAfter` / `channelsAfter` are the target's live roles and channels at
this point. -/
def afterClearPhases (b : String) (g : Int) (rulesId updatesId : Option Int)
    (rolesAfter channelsAfter : List GuildItem)
    (allUsedRoles allBackupChannels : List Int) (overallSuccess : Bool)
    (st : DelState) : RestoreTrace :=
  let stOrphan : DelState := { refs := st.refs, ops := [] }
  let st4 := (delete_all b g rulesId updatesId
    [fun r => !(allUsedRoles.contains r.id), fun r => !(r.id == g)]
    Op.delRole stOrphan rolesAfter).1
  let st5 :=
    if overallSuccess then
      (delete_all b g rulesId updatesId
        [fun c => !(allBackupChannels.contains c.id)]
        Op.delChannel st4 channelsAfter).1
    else st4
  { clearOps := st.ops, orphanOps := st5.ops, refs := st5.refs,
    result := .finished overallSuccess }

/-- The deletion passes of one whole `backup_load_callback` run: the
optional clear phase followed (when it did not abort) by the
reconciliation phases — whose create/edit traffic is not part of this
trace — and the orphan cleanup. -/
def backupLoadDeletions (b : String) (g : Int) (rulesId updatesId : Option Int)
    (clearGuild : Bool) (roles channels rolesAfter channelsAfter : List GuildItem)
    (refs0 : RefTable) (allUsedRoles allBackupChannels : List Int)
    (overallSuccess : Bool) : RestoreTrace :=
  if clearGuild then
    backupLoadClear b g rulesId updatesId roles channels refs0
      (afterClearPhases b g rulesId updatesId rolesAfter channelsAfter
        allUsedRoles allBackupChannels overallSuccess)
  else
    afterClearPhases b g rulesId updatesId rolesAfter channelsAfter
      allUsedRoles allBackupChannels overallSuccess { refs := refs0, ops := [] }

/-- A role record as produced by `Database.get_backup` (database.py lines
221-240): one value for every role attribute column, with `colour`
json-decoded to its stored component list and `display_icon` the stored
asset key or SQL NULL. -/
structure BackupRoleRec where
  name : String
  id : Int
  permissions : Int
  colour : List Int
  hoist : Bool
  display_icon : Option String
  mentionable : Bool
  position : Int
deriving DecidableEq, Repr

/-- The Python dict `get_backup` builds for a role: every key present. -/
def BackupRoleRec.toDict (r : BackupRoleRec) : RoleDict :=
  { name := some r.name, id := some r.id, permissions := some r.permissions,
    colour := some r.colour, hoist := some r.hoist,
    display_icon := some (match r.display_icon with
      | some k => IconVal.keyRef k
      | none => IconVal.nullv),
    mentionable := some r.mentionable, position := some r.position }

/-- A live role of the target guild as `backup_load_callback` sees it:
its id, the `is_bot_managed()` flag, whether its first member is the bot
itself (`current_role.members[0].id == self.bot.user.id` with the
emptiness guard), the dict `convert_guild_role_to_json` returns for it,
and whether its remote `edit()` call raises `discord.HTTPException`. -/
structure LiveRole where
  id : Int
  bot_managed : Bool
  firstMemberIsBot : Bool
  raw : RoleDict
  editFails : Bool
deriving DecidableEq, Repr

/-- The guild-side context of the role reconciliation loop
(backuphandler.py lines 205-332). -/
structure RoleEnv where
  backupId : String
  guildId : Int
  roleIcons : Bool
  assetExists : String → Bool
  liveRoles : List LiveRole

/-- Lookup of `guild.get_role`. -/
def RoleEnv.getRole (env : RoleEnv) (i : Int) : Option LiveRole :=
  env.liveRoles.find? (fun r => r.id == i)

/-- Modelled from the spec: `convert_guild_role_to_json` is imported from
`utils` but absent from the copy of backup.py in the repository.  Per the
spec's Capture Engine section it extracts the canonical Role record
(name, id, permission bitmask, decomposed colour, hoist, the optional icon
reference, mentionable, position) from a live role, and — following the
`extract_attributes_from_class` pattern backup.py uses for channels — it
returns the empty dict for `None`.  A live role's dict is carried as its
`raw` field. -/
def convert_guild_role_to_json : Option LiveRole → RoleDict
  | some lr => lr.raw
  | none => emptyRoleDict

/-- State threaded through the role loop: the reference table, the
`all_used_roles` accumulator and the trace of issued role calls. -/
structure RolePhaseState where
  refs : RefTable
  usedRoles : List Int
  ops : List Op
deriving DecidableEq, Repr

/-- An exception that escapes the role loop uncaught: `guild.create_role`
raising (it is not inside any try/except, backuphandler.py lines 286-289),
or `set_reference_id` raising `sqlite3.IntegrityError`. -/
inductive RoleFatal
  | createFailed (roleName : String)
  | refError (m : String)
deriving DecidableEq, Repr

/-- The `del backup_role["display_icon"]` arm of the icon cleanup
(backuphandler.py line 257-258): remove the key when it is present. -/
def delIconBackup (b : RoleDict) : RoleDict :=
  if b.display_icon ≠ none then { b with display_icon := none } else b

/-- The display-icon handling of the role loop (backuphandler.py lines
237-261).  With role icons enabled and a stored key whose asset file
exists, the backup dict's `display_icon` is replaced by the file's bytes;
in every other case `del_display_icon` is set and the key is deleted from
the backup dict.  The current-role dict is returned unchanged: line 260
tests `raw_current_role.get("display_role", ...)` — a key no role dict
ever carries — so its `display_icon` entry is never deleted. -/
def iconPass (roleIcons : Bool) (assetExists : String → Bool)
    (b r : RoleDict) : RoleDict × RoleDict :=
  if roleIcons then
    match b.display_icon with
    | some (.keyRef k) =>
      if assetExists k then ({ b with display_icon := some (.bytes k) }, r)
      else (delIconBackup b, r)
    | some (.bytes k) =>
      if assetExists k then ({ b with display_icon := some (.bytes k) }, r)
      else (delIconBackup b, r)
    | some .nullv => (delIconBackup b, r)
    | none => (delIconBackup b, r)
  else (delIconBackup b, r)

/-- One iteration of the role reconciliation loop (backuphandler.py lines
208-332) on the backup role `rec`.  `createOutcome` is the remote outcome
`guild.create_role` would have: `some newId` on success, `none` when it
raises — an exception the loop does not catch.  A `current_role.edit`
call is recorded as `Op.editRole`; whether it succeeds or raises
`discord.HTTPException`, the loop continues with unchanged observable
state (its only success-side effect feeds the commented-out bulk position
edit), so `LiveRole.editFails` does not alter the outcome. -/
def processRole (env : RoleEnv) (st : RolePhaseState) (rec : BackupRoleRec)
    (createOutcome : Option Int) : Except RoleFatal RolePhaseState :=
  let step1 : Except RoleFatal (Option LiveRole × RefTable) :=
    if rec.position = 0 then
      match set_reference_id st.refs env.backupId env.guildId rec.id env.guildId with
      | .ok t => .ok (env.getRole env.guildId, t)
      | .error e => .error (.refError e)
    else
      .ok (env.getRole (get_reference_id st.refs env.backupId env.guildId rec.id),
        st.refs)
  match step1 with
  | .error e => .error e
  | .ok (currentRole?, refs1) =>
    let rawCurrent := convert_guild_role_to_json currentRole?
    if currentRole?.elim false (fun lr => lr.bot_managed && lr.firstMemberIsBot) then
      .ok { st with refs := refs1 }
    else
      let pair := iconPass env.roleIcons env.assetExists rec.toDict rawCurrent
      match currentRole? with
      | none =>
        match createOutcome with
        | none => .error (.createFailed rec.name)
        | some newRoleId =>
          match set_reference_id refs1 env.backupId env.guildId rec.id newRoleId with
          | .error e => .error (.refError e)
          | .ok refs2 =>
            .ok { refs := refs2, usedRoles := st.usedRoles ++ [newRoleId],
                  ops := st.ops ++ [Op.createRole newRoleId] }
      | some lr =>
        let b2 := { pair.1 with id := none }
        let r2 := { pair.2 with id := none }
        if b2 == r2 then
          .ok { st with refs := refs1, usedRoles := st.usedRoles ++ [lr.id] }
        else
          .ok { refs := refs1, usedRoles := st.usedRoles ++ [lr.id],
                ops := st.ops ++ [Op.editRole lr.id] }

/-- The role reconciliation loop over position-sorted backup roles, each
paired with its `guild.create_role` outcome. -/
def rolePhase (env : RoleEnv) :
    RolePhaseState → List (BackupRoleRec × Option Int) →
    Except RoleFatal RolePhaseState
  | st, [] => .ok st
  | st, (rec, co) :: rest =>
    match processRole env st rec co with
    | .error e => .error e
    | .ok st' => rolePhase env st' rest

/-- Stable insertion step for the position sort of the role loop. -/
def roleSortInsert (x : BackupRoleRec × Option Int) :
    List (BackupRoleRec × Option Int) → List (BackupRoleRec × Option Int)
  | [] => [x]
  | y :: ys =>
    if y.1.position ≤ x.1.position then y :: roleSortInsert x ys
    else x :: y :: ys

/-- The sort `sorted(guild_backup.roles, key=lambda _dict: _dict.get("position"))`. -/
def sortRolesByPosition :
    List (BackupRoleRec × Option Int) → List (BackupRoleRec × Option Int)
  | [] => []
  | x :: xs => roleSortInsert x (sortRolesByPosition xs)

/-- The whole Phase-2 role pass of `backup_load_callback`. -/
def backupLoadRolePhase (env : RoleEnv) (st : RolePhaseState)
    (roles : List (BackupRoleRec × Option Int)) : Except RoleFatal RolePhaseState :=
  rolePhase env st (sortRolesByPosition roles)

/-- A live channel of the target guild as `handle_channels` sees it: its
id, its concrete type code (`channel.type[1]`), the dict
`convert_guild_channel_to_json` returns for it, and whether its remote
`edit()` call raises. -/
structure LiveChannel where
  id : Int
  typeCode : Int
  raw : ChannelDict
  editFails : Bool
deriving DecidableEq, Repr

/-- The guild-side context of the channel reconciliation
(backuphandler.py lines 341-551).  `targetExists i` models
`guild.get_member(i) or guild.get_role(i)` being non-None. -/
structure ChanEnv where
  backupId : String
  guildId : Int
  channels : List LiveChannel
  targetExists : Int → Bool

/-- Lookup of `guild.get_channel`. -/
def ChanEnv.getChannel (env : ChanEnv) (i : Int) : Option LiveChannel :=
  env.channels.find? (fun c => c.id == i)

/-- Modelled from the spec: `convert_guild_channel_to_json` is imported
from `utils` but absent from the copy of backup.py in the repository.  Per
the spec's Capture Engine section it extracts the canonical Channel record
(the `CHANNEL_ATTRIBUTE_NAMES` subset, with enumerations flattened to
codes and overwrites converted to the entry list) from a live channel,
and — following the `extract_attributes_from_class` pattern backup.py uses
at capture — it returns the empty dict for `None`.  A live channel's dict
is carried as its `raw` field. -/
def convert_guild_channel_to_json : Option LiveChannel → ChannelDict
  | some lc => lc.raw
  | none => emptyChannelDict

/-- One entry of `channel_data` / `category_data` (backuphandler.py lines
347-368) plus the remote outcomes of the create calls the item may issue:
`createFirst` is `guild._create_channel` at the snapshot's exact type
(`none` = `discord.HTTPException`), `fallbackResult` the fallback create
(`none` = it raises, which nothing catches). -/
structure ChanItem where
  current : ChannelDict
  backup : ChannelDict
  isEdit : Bool
  createFirst : Option Int
  fallbackResult : Option Int
deriving DecidableEq, Repr

/-- State threaded through `handle_channels`: the reference table, the
`all_backup_channels` accumulator and the trace of issued channel calls. -/
structure ChanState where
  refs : RefTable
  allBackupChannels : List Int
  ops : List Op
deriving DecidableEq, Repr

/-- An exception that escapes `handle_channels` uncaught: an
`AttributeError` from using a `None` reference channel, a `TypeError`
from a missing dict key, the `NameError` from the fallback branch when the
type code maps to neither fallback family, a raising fallback
`_create_channel` (not inside any try), or `sqlite3.IntegrityError` from
`set_reference_id`. -/
inductive ChanFatal
  | attrError
  | typeError
  | nameError
  | createRaised
  | refError (m : String)
deriving DecidableEq, Repr

/-- Loop-step outcome: continue with the next item, or `return False`
(the edit-exception path, backuphandler.py lines 495-500). -/
inductive ChanStep
  | cont (st : ChanState)
  | abort (st : ChanState)
deriving DecidableEq, Repr

/-- Python dict update on the resolved-overwrites mapping keyed by target:
replace the value of an existing key in place, else append. -/
def updateAssoc (l : List (Int × List (String × Option Bool))) (k : Int)
    (v : List (String × Option Bool)) : List (Int × List (String × Option Bool)) :=
  if l.any (fun p => p.1 == k) then
    l.map (fun p => if p.1 == k then (k, v) else p)
  else l ++ [(k, v)]

/-- The `CHANNEL_TYPES` dict lookup (backuphandler.py lines 17-24), on
type codes. -/
def channelTypeMap : Option Int → Option Int
  | some 0 => some 0
  | some 2 => some 2
  | some 4 => some 4
  | some 5 => some 5
  | some 13 => some 13
  | some 15 => some 15
  | _ => none

/-- Resolution `get_reference` applied to a value that may be Python `None`
(`old_id = NULL` matches no row, so `None` passes through). -/
def resolveRefOpt (tbl : RefTable) (b : String) (g : Int) :
    Option Int → Option Int
  | some o => some (get_reference_id tbl b g o)
  | none => none

/-- Key removal `pop_if_available("category_id")` on one dict. -/
def popCategoryId (d : ChannelDict) : ChannelDict := { d with category_id := none }

/-- Key removal `pop_if_available("id")` on one dict. -/
def popId (d : ChannelDict) : ChannelDict := { d with id := none }

/-- Key removal `pop_if_available("type")` on one dict. -/
def popType (d : ChannelDict) : ChannelDict := { d with type := none }

/-- Key removal `pop_if_available("overwrites")` on one dict. -/
def popOverwrites (d : ChannelDict) : ChannelDict := { d with overwrites := none }

/-- The tail of the create branch (backuphandler.py lines 541-545): append
the new channel's id to `all_backup_channels`, then
`set_reference(int(backup_channel["id"]), int(new_channel["id"]))`. -/
def chanAfterCreate (env : ChanEnv) (st : ChanState) (ctype : Option Int)
    (payload : ChannelDict) (newId : Int) : Except ChanFatal ChanStep :=
  let st :=
    { st with
      ops := st.ops ++ [Op.createChannel ctype payload newId],
      allBackupChannels := st.allBackupChannels ++ [newId] }
  match payload.id with
  | none => .error .typeError
  | some oldId =>
    match set_reference_id st.refs env.backupId env.guildId oldId newId with
    | .error m => .error (.refError m)
    | .ok t => .ok (.cont { st with refs := t })

/-- One iteration of the `handle_channels` loop (backuphandler.py lines
384-547): resolve the parent category and the channel's own id through the
Reference Mapper, adopt the resolved live channel's dict as the comparison
baseline, resolve the overwrite targets dropping the ones that no longer
exist, then either skip / edit (an edit exception makes the whole call
`return False`) or create with the text/voice fallback and register the
new id. -/
def processChanItem (env : ChanEnv) (st : ChanState) (item : ChanItem) :
    Except ChanFatal ChanStep :=
  let backup_category_id := item.backup.category_id.join
  let reference_category_id :=
    resolveRefOpt st.refs env.backupId env.guildId backup_category_id
  let reference_channel_id :=
    resolveRefOpt st.refs env.backupId env.guildId item.backup.id
  let reference_channel :=
    match reference_channel_id with
    | some i => env.getChannel i
    | none => none
  let current :=
    match reference_channel with
    | some rc => rc.raw
    | none => item.current
  let st :=
    match reference_channel with
    | some rc => { st with allBackupChannels := st.allBackupChannels ++ [rc.id] }
    | none => st
  match item.backup.overwrites with
  | none => .error .typeError
  | some ovrList =>
    let overwrites := ovrList.foldl (fun acc o =>
      let tid := get_reference_id st.refs env.backupId env.guildId o.target_id
      if env.targetExists tid then updateAssoc acc tid o.overwrites else acc) []
    let bc :=
      if current.type == some 4 then (popCategoryId item.backup, popCategoryId current)
      else ({ item.backup with category_id := some reference_category_id }, current)
    let backup := bc.1
    let current := bc.2
    if item.isEdit || reference_channel.isSome then
      let staged : Except ChanFatal ChannelDict :=
        if backup.type == some 13 then
          match reference_channel with
          | none => .error .attrError
          | some rc =>
            if rc.typeCode == 2 then .ok { backup with user_limit := some (some 0) }
            else .ok backup
        else .ok backup
      match staged with
      | .error e => .error e
      | .ok backup =>
        let backup := popType (popId backup)
        let current := popType (popId current)
        if backup == current then .ok (.cont st)
        else
          let backup := popOverwrites backup
          let current := popOverwrites current
          if overwrites.isEmpty && backup == current then .ok (.cont st)
          else
            match reference_channel with
            | none => .error .attrError
            | some rc =>
              let st := { st with ops := st.ops ++ [Op.editChannel rc.id] }
              if rc.editFails then .ok (.abort st) else .ok (.cont st)
    else
      let backup := popOverwrites backup
      match item.createFirst with
      | some newId => chanAfterCreate env st (channelTypeMap backup.type) backup newId
      | none =>
        match backup.type with
        | some t =>
          if [0, 5, 10, 11, 12, 15].contains t then
            match item.fallbackResult with
            | none => .error .createRaised
            | some newId => chanAfterCreate env st (channelTypeMap (some 0)) backup newId
          else if [3, 13].contains t then
            let backup := { backup with user_limit := some (some 0) }
            match item.fallbackResult with
            | none => .error .createRaised
            | some newId => chanAfterCreate env st (channelTypeMap (some 2)) backup newId
          else .error .nameError
        | none => .error .nameError

/-- The `handle_channels` loop body over already-sorted data: stops with
`False` on the edit-exception path, else processes every item and returns
`True`. -/
def handleGo (env : ChanEnv) :
    ChanState → List ChanItem → Except ChanFatal (Bool × ChanState)
  | st, [] => .ok (true, st)
  | st, item :: rest =>
    match processChanItem env st item with
    | .error e => .error e
    | .ok (.abort st') => .ok (false, st')
    | .ok (.cont st') => handleGo env st' rest

/-- Stable insertion step for the position sort of `handle_channels`. -/
def chanSortInsert (x : ChanItem) : List ChanItem → List ChanItem
  | [] => [x]
  | y :: ys =>
    if y.backup.position.getD 0 ≤ x.backup.position.getD 0 then
      y :: chanSortInsert x ys
    else x :: y :: ys

/-- The sort `sorted(data, key=lambda _dict: _dict.get("backup_channel").get("position"))`
(backup positions are NOT NULL in the schema). -/
def sortChanItems : List ChanItem → List ChanItem
  | [] => []
  | x :: xs => chanSortInsert x (sortChanItems xs)

/-- The inner `handle_channels` coroutine (backuphandler.py lines 370-547). -/
def handle_channels (env : ChanEnv) (st : ChanState) (data : List ChanItem) :
    Except ChanFatal (Bool × ChanState) :=
  handleGo env st (sortChanItems data)

/-- Phase 3 of `backup_load_callback` (lines 549-553): categories first,
then the other channels — the second group runs whatever the first
returned — and `overall_success` is the conjunction of the two results. -/
def backupChannelsPhase (env : ChanEnv) (st : ChanState)
    (categoryData channelData : List ChanItem) :
    Except ChanFatal (Bool × ChanState) :=
  match handle_channels env st categoryData with
  | .error e => .error e
  | .ok (catOk, st1) =>
    match handle_channels env st1 channelData with
    | .error e => .error e
    | .ok (chanOk, st2) => .ok (catOk && chanOk, st2)

/-- The scan loop building one `compare_data` entry (backuphandler.py
lines 347-362): look the backup channel up by its original id, remember
whether it exists (`action`), and take `convert_guild_channel_to_json` of
the result as the current dict. -/
def scanChannel (env : ChanEnv) (b : ChannelDict)
    (createFirst fallbackResult : Option Int) : ChanItem :=
  let cur? :=
    match b.id with
    | some i => env.getChannel i
    | none => none
  { current := convert_guild_channel_to_json cur?, backup := b,
    isEdit := cur?.isSome, createFirst := createFirst,
    fallbackResult := fallbackResult }

/-- The category / non-category split (backuphandler.py lines 364-368). -/
def splitChannels (env : ChanEnv)
    (inputs : List (ChannelDict × Option Int × Option Int)) :
    List ChanItem × List ChanItem :=
  let items := inputs.map (fun t => scanChannel env t.1 t.2.1 t.2.2)
  (items.filter (fun i => i.backup.type == some 4),
   items.filter (fun i => !(i.backup.type == some 4)))

/-- The whole Phase-3 channel pass of `backup_load_callback`: scan, split,
and run the two groups. -/
def backupLoadChannels (env : ChanEnv) (st : ChanState)
    (inputs : List (ChannelDict × Option Int × Option Int)) :
    Except ChanFatal (Bool × ChanState) :=
  backupChannelsPhase env st (splitChannels env inputs).1 (splitChannels env inputs).2

/-- A category channel dict as `get_backup` produces it (type 4: only the
seven base attribute keys are present). -/
def catDict7 : ChannelDict :=
  { name := some "old-category", id := some 7, nsfw := some false,
    position := some 0, type := some 4, overwrites := some [],
    permissions_synced := some false, category_id := none,
    default_auto_archive_duration := none, default_thread_slowmode_delay := none,
    slowmode_delay := none, bitrate := none, user_limit := none,
    rtc_region := none, video_quality_mode := none }

/-- The snapshot version of channel 7: same category renamed. -/
def snapDict7 : ChannelDict := { catDict7 with name := some "new-category" }

/-- The live dict of channel 7 (live category objects additionally expose
a null `category_id` attribute). -/
def liveDict7 : ChannelDict := { catDict7 with category_id := some none }

/-- A live category whose remote `edit()` raises. -/
def liveChan7 : LiveChannel := { id := 7, typeCode := 4, raw := liveDict7, editFails := true }

/-- A snapshot text channel (id 300) with no live counterpart. -/
def snapDict300 : ChannelDict :=
  { name := some "general", id := some 300, nsfw := some false,
    position := some 1, type := some 0, overwrites := some [],
    permissions_synced := some false, category_id := some none,
    default_auto_archive_duration := some (some 60),
    default_thread_slowmode_delay := some none,
    slowmode_delay := some (some 0), bitrate := none, user_limit := none,
    rtc_region := none, video_quality_mode := none }

/-- A guild holding only the failing category channel 7. -/
def chanEnvC5 : ChanEnv :=
  { backupId := "b", guildId := 1, channels := [liveChan7],
    targetExists := fun _ => false }

/-- A guild with no live channels at all. -/
def chanEnvC9 : ChanEnv :=
  { backupId := "b", guildId := 1, channels := [], targetExists := fun _ => false }

/-- A snapshot stage-voice channel (type 13, user limit 10000) with no
live counterpart. -/
def snapDict200 : ChannelDict :=
  { name := some "stage", id := some 200, nsfw := some false,
    position := some 2, type := some 13, overwrites := some [],
    permissions_synced := some false, category_id := some none,
    default_auto_archive_duration := none, default_thread_slowmode_delay := none,
    slowmode_delay := some (some 0), bitrate := some (some 64000),
    user_limit := some (some 10000), rtc_region := some none,
    video_quality_mode := some (some 1) }

/-- A backup role (position 1, no icon) whose live counterpart is
attribute-identical. -/
def recC2 : BackupRoleRec :=
  { name := "general", id := 5, permissions := 0, colour := [0, 0, 0],
    hoist := false, display_icon := none, mentionable := false, position := 1 }

/-- The live role matching `recC2` exactly (its converted dict equals the
backup's dict). -/
def liveRoleC2 : LiveRole :=
  { id := 5, bot_managed := false, firstMemberIsBot := false,
    raw := recC2.toDict, editFails := false }

/-- A guild without the ROLE_ICONS feature holding exactly `liveRoleC2`. -/
def roleEnvC2 : RoleEnv :=
  { backupId := "b", guildId := 1, roleIcons := false,
    assetExists := fun _ => false, liveRoles := [liveRoleC2] }

/-- Backup role "alpha" (no live counterpart in the C8 scenario). -/
def recC8a : BackupRoleRec :=
  { name := "alpha", id := 10, permissions := 0, colour := [0, 0, 0],
    hoist := false, display_icon := none, mentionable := false, position := 1 }

/-- Backup role "beta", processed after "alpha". -/
def recC8b : BackupRoleRec := { recC8a with name := "beta", id := 11, position := 2 }

/-- A guild with no live roles (every backup role needs creation). -/
def roleEnvC8 : RoleEnv :=
  { backupId := "b", guildId := 1, roleIcons := false,
    assetExists := fun _ => false, liveRoles := [] }

/-- A live role for "alpha" that was renamed and whose `edit()` raises
`discord.HTTPException`. -/
def liveRoleC8 : LiveRole :=
  { id := 10, bot_managed := false, firstMemberIsBot := false,
    raw := { recC8a.toDict with name := some "renamed" }, editFails := true }

/-- A guild holding exactly `liveRoleC8`. -/
def roleEnvC8b : RoleEnv :=
  { backupId := "b", guildId := 1, roleIcons := false,
    assetExists := fun _ => false, liveRoles := [liveRoleC8] }

/-- A deletable live role (id 5) whose remote `delete()` raises "boom". -/
def failRole5 : GuildItem :=
  { id := 5, bot_managed := false, assignable := true, integration := false,
    deleteFails := true, exc := "boom" }

theorem refFind_eq_none_of_any_eq_false {p : RefRow → Bool} {l : RefTable}
    (h : l.any p = false) : l.find? p = none := by
  induction l with
  | nil => rfl
  | cons x xs ih =>
    simp only [List.any_cons, Bool.or_eq_false_iff] at h
    simp [List.find?_cons, h.1, ih h.2]

theorem refFind_filter_not (p : RefRow → Bool) (l : RefTable) :
    (l.filter (fun r => !(p r))).find? p = none := by
  induction l with
  | nil => rfl
  | cons x xs ih =>
    by_cases hx : p x = true
    · simp [List.filter_cons, hx, ih]
    · have hx' : p x = false := by simpa using hx
      simp [List.filter_cons, hx', List.find?_cons, ih]

theorem refFind_append_of_none {p : RefRow → Bool} {l₁ l₂ : RefTable}
    (h : l₁.find? p = none) : (l₁ ++ l₂).find? p = l₂.find? p := by
  induction l₁ with
  | nil => simp
  | cons x xs ih =>
    by_cases hx : p x = true
    · simp [List.find?_cons, hx] at h
    · have hx' : p x = false := by simpa using hx
      simp only [List.find?_cons, hx'] at h
      simp [List.find?_cons, hx', ih h]

theorem get_after_del (tbl : RefTable) (b : String) (g : Int) (o : Int) :
    get_reference_id (del_reference_id tbl b g o) b g o = o := by
  unfold del_reference_id
  by_cases h : tbl.any (refScopeMatch b g o) = true
  · rw [if_pos h]
    unfold get_reference_id
    rw [refFind_filter_not (refScopeMatch b g o) tbl]
  · have h' : tbl.any (refScopeMatch b g o) = false := by simpa using h
    rw [if_neg (by simp [h'])]
    unfold get_reference_id
    rw [refFind_eq_none_of_any_eq_false h']

theorem get_after_scope_update (b : String) (g : Int) (o n : Int) :
    ∀ tbl : RefTable, tbl.any (refScopeMatch b g o) = true →
    get_reference_id (tbl.map (fun r =>
      if refScopeMatch b g o r then { r with old_id := o, new_id := n }
      else r)) b g o = n := by
  intro tbl
  induction tbl with
  | nil => intro h; cases h
  | cons x xs ih =>
    intro h
    by_cases hx : refScopeMatch b g o x = true
    · have hm : refScopeMatch b g o
          { x with old_id := o, new_id := n } = true := by
        simp only [refScopeMatch, Bool.and_eq_true, beq_iff_eq] at hx
        simp [refScopeMatch, hx.1.1, hx.2]
      simp [get_reference_id, List.map_cons, List.find?_cons, hx, hm]
    · have hx' : refScopeMatch b g o x = false := by simpa using hx
      have hxs : xs.any (refScopeMatch b g o) = true := by
        simpa [List.any_cons, hx'] using h
      have hrec := ih hxs
      simp only [get_reference_id] at hrec ⊢
      simpa [List.map_cons, List.find?_cons, hx'] using hrec

theorem get_after_scope_insert (b : String) (g : Int) (o n : Int)
    (tbl : RefTable) (h : tbl.any (refScopeMatch b g o) = false) :
    get_reference_id (tbl ++ [RefRow.mk o n b g]) b g o = n := by
  have hnone := refFind_eq_none_of_any_eq_false h
  have hfind : (tbl ++ [RefRow.mk o n b g]).find? (refScopeMatch b g o) =
      some (RefRow.mk o n b g) := by
    rw [refFind_append_of_none hnone]
    simp [List.find?_cons, refScopeMatch]
  unfold get_reference_id
  rw [hfind]

/-- C1: Reference Mapper stability — in any scope `(b, g)` and from any
table state, once `set_reference_id b g 100 200` succeeds,
`get_reference_id` resolves `100` to `200`, and after a subsequent
`del_reference_id b g 100` it resolves `100` back to `100` (unmapped ids
pass through unchanged). -/
theorem reference_mapper_stability (tbl tbl' : RefTable) (b : String) (g : Int)
    (h : set_reference_id tbl b g 100 200 = .ok tbl') :
    get_reference_id tbl' b g 100 = 200 ∧
    get_reference_id (del_reference_id tbl' b g 100) b g 100 = 100 := by
  refine ⟨?_, get_after_del tbl' b g 100⟩
  unfold set_reference_id at h
  rw [if_neg (by norm_num)] at h
  by_cases hup : tbl.any (refScopeMatch b g 100) = true
  · rw [if_pos hup] at h
    cases h
    exact get_after_scope_update b g 100 200 tbl hup
  · have hup' : tbl.any (refScopeMatch b g 100) = false := by simpa using hup
    rw [if_neg (by simp [hup'])] at h
    by_cases hidx : tbl.any (refIndexMatch b 100) = true
    · rw [if_pos hidx] at h
      cases h
    · rw [if_neg hidx] at h
      cases h
      exact get_after_scope_insert b g 100 200 tbl hup'

/-- Witness for C1 at the concrete scope `("b", 1)` on the empty table. -/
theorem reference_mapper_stability_witness :
    get_reference_id [⟨100, 200, "b", 1⟩] "b" 1 100 = 200 ∧
    get_reference_id (del_reference_id [⟨100, 200, "b", 1⟩] "b" 1 100)
      "b" 1 100 = 100 :=
  reference_mapper_stability [] [⟨100, 200, "b", 1⟩] "b" 1 (by rfl)

/-- C7: the unique index `ref_index` covers only `(old_id, backup_id)`,
so after mapping `100 ↦ 200` for target guild 1, the same snapshot cannot
map `100 ↦ 300` for the distinct target guild 2 — the second
`set_reference_id` takes the INSERT path (no row matches its scope) and
violates the constraint instead of succeeding. -/
theorem reference_scope_not_per_target :
    set_reference_id [] "b" 1 100 200 = .ok [⟨100, 200, "b", 1⟩] ∧
    set_reference_id [⟨100, 200, "b", 1⟩] "b" 2 100 300 =
      .error "UNIQUE constraint failed: reference_ids.old_id, reference_ids.backup_id" := by
  exact ⟨rfl, rfl⟩

/-- C10: `delete_backup` filters only the `backups` table by the given id;
the `guild_channels`, `guild_roles` and `reference_ids` tables — including
every per-channel and per-role row keyed to the deleted backup id — are
returned unchanged. -/
theorem delete_backup_frame (db : DatabaseState) (bid : String) :
    (delete_backup db bid).guild_channels = db.guild_channels ∧
    (delete_backup db bid).guild_roles = db.guild_roles ∧
    (delete_backup db bid).reference_ids = db.reference_ids ∧
    (delete_backup db bid).backups =
      db.backups.filter (fun row => !(row.id == bid)) :=
  ⟨rfl, rfl, rfl, rfl⟩

/-- C6 counterexample: resource 7 is successfully deleted (the pass ends
with no failure and its delete call issued), yet the reference entry
`100 ↦ 7` that maps a snapshot-time id onto the deleted resource's live id
is still present afterwards — `del_reference` keys on `old_id = item.id`,
not on `new_id`, so success does not remove the resource's entry. -/
theorem clear_pass_keeps_entry_of_deleted_resource :
    delete_all "b" 1 none none [] Op.delChannel
      { refs := [⟨100, 7, "b", 1⟩], ops := [] }
      [{ id := 7, bot_managed := false, assignable := true,
         integration := false, deleteFails := false, exc := "" }] =
      ({ refs := [⟨100, 7, "b", 1⟩], ops := [Op.delChannel 7] }, none) := by
  rfl

/-- C6 (amended): in the clear pass, for every item that is neither
protected nor excluded by a check, the reference table afterwards is
exactly `del_reference_id` applied at the item's live id — the removal
happens before the delete call and therefore regardless of whether the
deletion succeeds or raises. -/
theorem clear_pass_removes_entry_before_delete (b : String) (g : Int)
    (ru uu : Option Int) (checks : List (GuildItem → Bool)) (mkOp : Int → Op)
    (refs : RefTable) (ops : List Op) (item : GuildItem)
    (hskip : ¬(ru = some item.id ∨ uu = some item.id))
    (hchecks : checks.all (fun c => c item) = true) :
    (delete_all b g ru uu checks mkOp { refs := refs, ops := ops }
      [item]).1.refs = del_reference_id refs b g item.id := by
  cases hf : item.deleteFails <;>
    simp [delete_all, hskip, hchecks, hf]

/-- Witness for the amended C6: the entry keyed by the failing role's own
id (`old_id = 5`) is removed even though its deletion raises. -/
theorem clear_pass_removes_entry_before_delete_witness :
    (delete_all "b" 1 none none [] Op.delRole
      { refs := [⟨5, 9, "b", 1⟩], ops := [] }
      [{ id := 5, bot_managed := false, assignable := true,
         integration := false, deleteFails := true, exc := "boom" }]).1.refs =
      del_reference_id [⟨5, 9, "b", 1⟩] "b" 1 5 :=
  clear_pass_removes_entry_before_delete "b" 1 none none [] Op.delRole
    [⟨5, 9, "b", 1⟩] []
    { id := 5, bot_managed := false, assignable := true,
      integration := false, deleteFails := true, exc := "boom" }
    (by simp) (by rfl)

/-- C2: a role whose canonical attributes (id stripped) equal the
snapshot's is nevertheless NOT skipped — the icon cleanup deletes the
`display_icon` key from the backup dict but never from the current-role
dict (line 260 tests the key "display_role", a key role dicts do not
have), so the equality test at line 302 fails and an edit network call is
issued for the already-converged role. -/
theorem converged_role_still_edited :
    ({ recC2.toDict with id := none } = { liveRoleC2.raw with id := none }) ∧
    processRole roleEnvC2 { refs := [], usedRoles := [], ops := [] }
      recC2 (some 99) =
      .ok { refs := [], usedRoles := [5], ops := [Op.editRole 5] } :=
  ⟨rfl, rfl⟩

/-- C8 counterexample: role "alpha" has no live counterpart and its
`guild.create_role` raises; the exception is not caught — the whole
restore callback aborts and role "beta" is never processed, contrary to
"absorbed locally, that single role is skipped, processing continues". -/
theorem role_create_error_aborts_restore :
    rolePhase roleEnvC8 { refs := [], usedRoles := [], ops := [] }
      [(recC8a, none), (recC8b, some 7)] =
      .error (.createFailed "alpha") := by
  rfl

/-- C8 (amended): only role-edit failures are absorbed — a role that
resolves to a live, editable counterpart with differing attributes has its
`edit()` issued, and whether or not that call raises
`discord.HTTPException` the loop continues with the next role; an
exception from `guild.create_role` for a missing role, by contrast, is
uncaught (`role_create_error_aborts_restore`). -/
theorem role_edit_failure_absorbed (env : RoleEnv) (st : RolePhaseState)
    (rec : BackupRoleRec) (co : Option Int) (lr : LiveRole)
    (rest : List (BackupRoleRec × Option Int))
    (hpos : rec.position ≠ 0)
    (hlook : env.getRole
      (get_reference_id st.refs env.backupId env.guildId rec.id) = some lr)
    (hbot : (lr.bot_managed && lr.firstMemberIsBot) = false)
    (_hfail : lr.editFails = true)
    (hneq : ({ (iconPass env.roleIcons env.assetExists rec.toDict lr.raw).1
        with id := none } ==
      { (iconPass env.roleIcons env.assetExists rec.toDict lr.raw).2
        with id := none }) = false) :
    processRole env st rec co =
      .ok { refs := st.refs, usedRoles := st.usedRoles ++ [lr.id],
            ops := st.ops ++ [Op.editRole lr.id] } ∧
    rolePhase env st ((rec, co) :: rest) =
      rolePhase env
        { refs := st.refs, usedRoles := st.usedRoles ++ [lr.id],
          ops := st.ops ++ [Op.editRole lr.id] } rest := by
  have h1 : processRole env st rec co =
      .ok { refs := st.refs, usedRoles := st.usedRoles ++ [lr.id],
            ops := st.ops ++ [Op.editRole lr.id] } := by
    unfold processRole
    rw [if_neg hpos]
    simp [hlook, convert_guild_role_to_json, hbot, hneq]
  exact ⟨h1, by simp [rolePhase, h1]⟩

/-- Witness for the amended C8: a renamed live role whose edit raises is
still a non-fatal step. -/
theorem role_edit_failure_absorbed_witness :
    processRole roleEnvC8b { refs := [], usedRoles := [], ops := [] }
      recC8a none =
      .ok { refs := [], usedRoles := [10], ops := [Op.editRole 10] } ∧
    rolePhase roleEnvC8b { refs := [], usedRoles := [], ops := [] }
      [(recC8a, none)] =
      rolePhase roleEnvC8b
        { refs := [], usedRoles := [10], ops := [Op.editRole 10] } [] :=
  role_edit_failure_absorbed roleEnvC8b
    { refs := [], usedRoles := [], ops := [] } recC8a none liveRoleC8 []
    (by decide) (by rfl) (by rfl) (by rfl) (by rfl)

/-- C5 counterexample: the category group aborts on the failed edit of
channel 7 (`handle_channels` yields `False`), yet the run goes on to the
non-category group, which issues the create of channel 300 → 42 — so an
edit failure does NOT prevent further channel operations "in any group",
even though the final result is failure. -/
theorem channel_edit_failure_does_not_stop_other_group :
    backupLoadChannels chanEnvC5 { refs := [], allBackupChannels := [], ops := [] }
      [(snapDict7, none, none), (snapDict300, some 42, none)] =
      .ok (false,
        { refs := [RefRow.mk 300 42 "b" 1],
          allBackupChannels := [7, 42],
          ops := [Op.editChannel 7,
            Op.createChannel (some 0) (popOverwrites snapDict300) 42] }) := by
  rfl

/-- C5 (amended): a failing channel edit aborts the remaining channels of
its own group only — `handle_channels` stops at the aborting item and
returns `False` untouched by the rest of that group — while the other
group still runs from the resulting state, and the restore reports success
exactly when both groups returned `True`. -/
theorem channel_edit_failure_aborts_own_group :
    (∀ (env : ChanEnv) (st : ChanState) (item : ChanItem)
      (rest : List ChanItem) (st' : ChanState),
      processChanItem env st item = .ok (.abort st') →
      handleGo env st (item :: rest) = .ok (false, st')) ∧
    (∀ (env : ChanEnv) (st : ChanState) (catData chanData : List ChanItem)
      (ok1 : Bool) (st1 : ChanState) (ok2 : Bool) (st2 : ChanState),
      handle_channels env st catData = .ok (ok1, st1) →
      handle_channels env st1 chanData = .ok (ok2, st2) →
      backupChannelsPhase env st catData chanData = .ok (ok1 && ok2, st2)) := by
  constructor
  · intro env st item rest st' h
    simp [handleGo, h]
  · intro env st catData chanData ok1 st1 ok2 st2 h1 h2
    simp [backupChannelsPhase, h1, h2]

/-- Witness for the amended C5 at the concrete failing-category scenario. -/
theorem channel_edit_failure_aborts_own_group_witness :
    handleGo chanEnvC5 { refs := [], allBackupChannels := [], ops := [] }
      [scanChannel chanEnvC5 snapDict7 none none] =
      .ok (false,
        { refs := [], allBackupChannels := [7],
          ops := [Op.editChannel 7] }) ∧
    backupChannelsPhase chanEnvC5
      { refs := [], allBackupChannels := [], ops := [] } [] [] =
      .ok ((true && true),
        { refs := [], allBackupChannels := [], ops := [] }) :=
  ⟨channel_edit_failure_aborts_own_group.1 chanEnvC5
      { refs := [], allBackupChannels := [], ops := [] }
      (scanChannel chanEnvC5 snapDict7 none none) []
      { refs := [], allBackupChannels := [7], ops := [Op.editChannel 7] }
      (by rfl),
   channel_edit_failure_aborts_own_group.2 chanEnvC5
      { refs := [], allBackupChannels := [], ops := [] } [] []
      true { refs := [], allBackupChannels := [], ops := [] }
      true { refs := [], allBackupChannels := [], ops := [] }
      (by rfl) (by rfl)⟩

theorem set_reference_id_insert (tbl : RefTable) (b : String) (g : Int)
    (o n : Int) (hne : o ≠ n)
    (hidx : tbl.all (fun r => !(refIndexMatch b o r)) = true) :
    set_reference_id tbl b g o n = .ok (tbl ++ [RefRow.mk o n b g]) := by
  have hidx' : ∀ r ∈ tbl, refIndexMatch b o r = false := by
    intro r hr
    have := List.all_eq_true.mp hidx r hr
    simpa using this
  have hscope : tbl.any (refScopeMatch b g o) = false := by
    cases htmp : tbl.any (refScopeMatch b g o) with
    | false => rfl
    | true =>
      obtain ⟨r, hr, hmatch⟩ := List.any_eq_true.mp htmp
      have h1 := hidx' r hr
      simp only [refScopeMatch, Bool.and_eq_true, beq_iff_eq] at hmatch
      simp [refIndexMatch, hmatch.1.1, hmatch.1.2] at h1
  have hidxany : tbl.any (refIndexMatch b o) = false := by
    cases htmp : tbl.any (refIndexMatch b o) with
    | false => rfl
    | true =>
      obtain ⟨r, hr, hmatch⟩ := List.any_eq_true.mp htmp
      have h1 := hidx' r hr
      rw [hmatch] at h1
      cases h1
  unfold set_reference_id
  rw [if_neg hne, if_neg (by simp [hscope]), if_neg (by simp [hidxany])]

/-- C9: a snapshot channel with no live counterpart whose exact-type
create is rejected gets a fallback create — a plain voice channel with
`user_limit` forced to 0 for a stage-voice (type 13) snapshot channel, a
plain text channel for the text-like types (0, 5, 10, 11, 12, 15) — and a
reference entry mapping the snapshot's original id to the newly created
live id is stored. -/
theorem create_type_fallback :
    (∀ (env : ChanEnv) (st : ChanState) (bdict : ChannelDict)
      (oldId newId : Int) (ovr : List OverwriteEntry),
      bdict.type = some 13 →
      bdict.id = some oldId →
      bdict.overwrites = some ovr →
      bdict.category_id = some none →
      env.getChannel
        (get_reference_id st.refs env.backupId env.guildId oldId) = none →
      oldId ≠ newId →
      st.refs.all (fun r => !(refIndexMatch env.backupId oldId r)) = true →
      processChanItem env st
        { current := emptyChannelDict, backup := bdict, isEdit := false,
          createFirst := none, fallbackResult := some newId } =
        .ok (.cont
          { refs := st.refs ++ [RefRow.mk oldId newId env.backupId env.guildId],
            allBackupChannels := st.allBackupChannels ++ [newId],
            ops := st.ops ++ [Op.createChannel (some 2)
              { bdict with
                category_id := some none,
                overwrites := none,
                user_limit := some (some 0) } newId] })) ∧
    (∀ (env : ChanEnv) (st : ChanState) (bdict : ChannelDict)
      (oldId newId t : Int) (ovr : List OverwriteEntry),
      bdict.type = some t →
      ([0, 5, 10, 11, 12, 15].contains t) = true →
      bdict.id = some oldId →
      bdict.overwrites = some ovr →
      bdict.category_id = some none →
      env.getChannel
        (get_reference_id st.refs env.backupId env.guildId oldId) = none →
      oldId ≠ newId →
      st.refs.all (fun r => !(refIndexMatch env.backupId oldId r)) = true →
      processChanItem env st
        { current := emptyChannelDict, backup := bdict, isEdit := false,
          createFirst := none, fallbackResult := some newId } =
        .ok (.cont
          { refs := st.refs ++ [RefRow.mk oldId newId env.backupId env.guildId],
            allBackupChannels := st.allBackupChannels ++ [newId],
            ops := st.ops ++ [Op.createChannel (some 0)
              { bdict with category_id := some none, overwrites := none }
              newId] })) := by
  constructor
  · intro env st bdict oldId newId ovr htype hid hovr hcat hlook hne hidx
    obtain ⟨f1, f2, f3, f4, f5, f6, f7, f8, f9, f10, f11, f12, f13, f14, f15⟩ :=
      bdict
    simp only at htype hid hovr hcat
    subst htype hid hovr hcat
    unfold processChanItem
    simp only [Option.join, emptyChannelDict, resolveRefOpt, hlook,
      chanAfterCreate, popOverwrites, channelTypeMap]
    simp [set_reference_id_insert st.refs env.backupId env.guildId oldId newId
      hne hidx]
  · intro env st bdict oldId newId t ovr htype hmem hid hovr hcat hlook hne hidx
    have hmem' : t ∈ ([0, 5, 10, 11, 12, 15] : List Int) := by simpa using hmem
    obtain ⟨f1, f2, f3, f4, f5, f6, f7, f8, f9, f10, f11, f12, f13, f14, f15⟩ :=
      bdict
    simp only at htype hid hovr hcat
    subst htype hid hovr hcat
    unfold processChanItem
    fin_cases hmem' <;>
      · simp only [Option.join, emptyChannelDict, resolveRefOpt, hlook,
          chanAfterCreate, popOverwrites, channelTypeMap]
        simp [set_reference_id_insert st.refs env.backupId env.guildId oldId
          newId hne hidx]

/-- Witness for C9: stage-voice snapshot channel 200 falls back to a voice
create with unlimited user limit, text snapshot channel 300 falls back to
a text create; both reference entries are stored. -/
theorem create_type_fallback_witness :
    processChanItem chanEnvC9 { refs := [], allBackupChannels := [], ops := [] }
      { current := emptyChannelDict, backup := snapDict200, isEdit := false,
        createFirst := none, fallbackResult := some 55 } =
      .ok (.cont
        { refs := [RefRow.mk 200 55 "b" 1],
          allBackupChannels := [55],
          ops := [Op.createChannel (some 2)
            { snapDict200 with
              category_id := some none,
              overwrites := none,
              user_limit := some (some 0) } 55] }) ∧
    processChanItem chanEnvC9 { refs := [], allBackupChannels := [], ops := [] }
      { current := emptyChannelDict, backup := snapDict300, isEdit := false,
        createFirst := none, fallbackResult := some 43 } =
      .ok (.cont
        { refs := [RefRow.mk 300 43 "b" 1],
          allBackupChannels := [43],
          ops := [Op.createChannel (some 0)
            { snapDict300 with category_id := some none, overwrites := none }
            43] }) :=
  ⟨create_type_fallback.1 chanEnvC9
      { refs := [], allBackupChannels := [], ops := [] } snapDict200 200 55 []
      (by rfl) (by rfl) (by rfl) (by rfl) (by rfl) (by decide) (by rfl),
   create_type_fallback.2 chanEnvC9
      { refs := [], allBackupChannels := [], ops := [] } snapDict300 300 43 0 []
      (by rfl) (by decide) (by rfl) (by rfl) (by rfl) (by rfl) (by decide)
      (by rfl)⟩

theorem delete_all_ops_sound (b : String) (g : Int) (ru uu : Option Int)
    (checks : List (GuildItem → Bool)) (mkOp : Int → Op) :
    ∀ (items : List GuildItem) (st : DelState) (op : Op),
      op ∈ (delete_all b g ru uu checks mkOp st items).1.ops →
      op ∈ st.ops ∨ ∃ item ∈ items, op = mkOp item.id ∧
        ru ≠ some item.id ∧ uu ≠ some item.id ∧
        checks.all (fun c => c item) = true := by
  intro items
  induction items with
  | nil =>
    intro st op h
    exact Or.inl h
  | cons item rest ih =>
    intro st op h
    simp only [delete_all] at h
    by_cases hskip : ru = some item.id ∨ uu = some item.id
    · rw [if_pos hskip] at h
      rcases ih st op h with h' | ⟨it, hit, hrest⟩
      · exact Or.inl h'
      · exact Or.inr ⟨it, List.mem_cons_of_mem _ hit, hrest⟩
    · rw [if_neg hskip] at h
      push_neg at hskip
      cases hch : checks.all (fun c => c item) with
      | false =>
        rw [if_pos (by simp [hch])] at h
        rcases ih st op h with h' | ⟨it, hit, hrest⟩
        · exact Or.inl h'
        · exact Or.inr ⟨it, List.mem_cons_of_mem _ hit, hrest⟩
      | true =>
        rw [if_neg (by simp [hch])] at h
        by_cases hf : item.deleteFails = true
        · rw [if_pos hf] at h
          simp only [List.mem_append, List.mem_singleton] at h
          rcases h with h' | h'
          · exact Or.inl h'
          · exact Or.inr ⟨item, List.mem_cons_self _ _,
              h', hskip.1, hskip.2, hch⟩
        · rw [if_neg hf] at h
          rcases ih _ op h with h' | ⟨it, hit, hrest⟩
          · simp only [List.mem_append, List.mem_singleton] at h'
            rcases h' with h'' | h''
            · exact Or.inl h''
            · exact Or.inr ⟨item, List.mem_cons_self _ _,
                h'', hskip.1, hskip.2, hch⟩
          · exact Or.inr ⟨it, List.mem_cons_of_mem _ hit, hrest⟩

theorem delete_all_fail_sound (b : String) (g : Int) (ru uu : Option Int)
    (checks : List (GuildItem → Bool)) (mkOp : Int → Op) :
    ∀ (items : List GuildItem) (st : DelState) (i : Int) (e : String),
      (delete_all b g ru uu checks mkOp st items).2 = some (i, e) →
      ∃ item ∈ items, item.id = i ∧ item.deleteFails = true ∧ item.exc = e := by
  intro items
  induction items with
  | nil =>
    intro st i e h
    cases h
  | cons item rest ih =>
    intro st i e h
    simp only [delete_all] at h
    by_cases hskip : ru = some item.id ∨ uu = some item.id
    · rw [if_pos hskip] at h
      obtain ⟨it, hit, hrest⟩ := ih st i e h
      exact ⟨it, List.mem_cons_of_mem _ hit, hrest⟩
    · rw [if_neg hskip] at h
      cases hch : checks.all (fun c => c item) with
      | false =>
        rw [if_pos (by simp [hch])] at h
        obtain ⟨it, hit, hrest⟩ := ih st i e h
        exact ⟨it, List.mem_cons_of_mem _ hit, hrest⟩
      | true =>
        rw [if_neg (by simp [hch])] at h
        by_cases hf : item.deleteFails = true
        · rw [if_pos hf] at h
          simp only [Prod.mk.injEq, Option.some.injEq] at h
          refine ⟨item, List.mem_cons_self _ _, ?_, hf, ?_⟩
          · exact h.1
          · exact h.2
        · rw [if_neg hf] at h
          obtain ⟨it, hit, hrest⟩ := ih _ i e h
          exact ⟨it, List.mem_cons_of_mem _ hit, hrest⟩

theorem delete_all_ops_isDelete (b : String) (g : Int) (ru uu : Option Int)
    (checks : List (GuildItem → Bool)) (mkOp : Int → Op)
    (hmk : ∀ i, (mkOp i).isDelete = true)
    (items : List GuildItem) (st : DelState)
    (hst : ∀ op ∈ st.ops, op.isDelete = true) :
    ∀ op ∈ (delete_all b g ru uu checks mkOp st items).1.ops,
      op.isDelete = true := by
  intro op hop
  rcases delete_all_ops_sound b g ru uu checks mkOp items st op hop with
    h | ⟨it, _, heq, _⟩
  · exact hst op h
  · rw [heq]
    exact hmk it.id

/-- C4: with `clear_guild` set, a deletion failure in the clear phase
aborts the restore at once — the callback returns the failure message
naming the offending resource's id and the raised exception, the whole
trace consists of delete calls only, the failing item really is a member
of the pass's iterable with `deleteFails` set, and the continuation of
the callback (`cont`: role reconciliation, channel reconciliation and
orphan cleanup) is never entered, whatever it would have done. -/
theorem clear_failure_aborts_restore (b : String) (g : Int)
    (ru uu : Option Int) (roles channels : List GuildItem) (refs : RefTable)
    (cont : DelState → RestoreTrace) :
    (∀ (st1 : DelState) (i : Int) (e : String),
      delete_all b g ru uu (clearRoleChecks g) Op.delRole
        { refs := refs, ops := [] } roles = (st1, some (i, e)) →
      backupLoadClear b g ru uu roles channels refs cont =
        { clearOps := st1.ops, orphanOps := [], refs := st1.refs,
          result := .clearFailRole i e } ∧
      (∃ item ∈ roles, item.id = i ∧ item.deleteFails = true ∧ item.exc = e) ∧
      (∀ op ∈ st1.ops, op.isDelete = true)) ∧
    (∀ (st1 st2 : DelState) (i : Int) (e : String),
      delete_all b g ru uu (clearRoleChecks g) Op.delRole
        { refs := refs, ops := [] } roles = (st1, none) →
      delete_all b g ru uu [] Op.delChannel st1 channels = (st2, some (i, e)) →
      backupLoadClear b g ru uu roles channels refs cont =
        { clearOps := st2.ops, orphanOps := [], refs := st2.refs,
          result := .clearFailChannel i e } ∧
      (∃ item ∈ channels, item.id = i ∧ item.deleteFails = true ∧
        item.exc = e) ∧
      (∀ op ∈ st2.ops, op.isDelete = true)) := by
  constructor
  · intro st1 i e h1
    refine ⟨?_, ?_, ?_⟩
    · simp only [backupLoadClear, h1]
    · exact delete_all_fail_sound b g ru uu (clearRoleChecks g) Op.delRole
        roles { refs := refs, ops := [] } i e (by rw [h1])
    · intro op hop
      have hops : st1.ops =
          (delete_all b g ru uu (clearRoleChecks g) Op.delRole
            { refs := refs, ops := [] } roles).1.ops := by
        rw [h1]
      rw [hops] at hop
      exact delete_all_ops_isDelete b g ru uu (clearRoleChecks g) Op.delRole
        (fun _ => rfl) roles { refs := refs, ops := [] }
        (fun _ hmem => absurd hmem (List.not_mem_nil _)) op hop
  · intro st1 st2 i e h1 h2
    have hops1 : ∀ op ∈ st1.ops, op.isDelete = true := by
      intro op hop
      have hops : st1.ops =
          (delete_all b g ru uu (clearRoleChecks g) Op.delRole
            { refs := refs, ops := [] } roles).1.ops := by
        rw [h1]
      rw [hops] at hop
      exact delete_all_ops_isDelete b g ru uu (clearRoleChecks g) Op.delRole
        (fun _ => rfl) roles { refs := refs, ops := [] }
        (fun _ hmem => absurd hmem (List.not_mem_nil _)) op hop
    refine ⟨?_, ?_, ?_⟩
    · simp only [backupLoadClear, h1, h2]
    · exact delete_all_fail_sound b g ru uu [] Op.delChannel channels st1 i e
        (by rw [h2])
    · intro op hop
      have hops : st2.ops =
          (delete_all b g ru uu [] Op.delChannel st1 channels).1.ops := by
        rw [h2]
      rw [hops] at hop
      exact delete_all_ops_isDelete b g ru uu [] Op.delChannel
        (fun _ => rfl) channels st1 hops1 op hop

/-- Witness for C4: the failing role 5 aborts the clear phase of a restore
whose continuation would have reported success. -/
theorem clear_failure_aborts_restore_witness :
    backupLoadClear "b" 1 none none [failRole5] [] []
      (afterClearPhases "b" 1 none none [] [] [] [] true) =
      { clearOps := [Op.delRole 5], orphanOps := [], refs := [],
        result := .clearFailRole 5 "boom" } ∧
    (∃ item ∈ [failRole5],
      item.id = 5 ∧ item.deleteFails = true ∧ item.exc = "boom") ∧
    (∀ op ∈ [Op.delRole 5], op.isDelete = true) :=
  (clear_failure_aborts_restore "b" 1 none none [failRole5] [] []
    (afterClearPhases "b" 1 none none [] [] [] [] true)).1
    { refs := [], ops := [Op.delRole 5] } 5 "boom" (by rfl)

theorem afterClearPhases_clearOps (b : String) (g : Int) (ru uu : Option Int)
    (rolesAfter channelsAfter : List GuildItem) (used bchans : List Int)
    (succ : Bool) (st : DelState) :
    (afterClearPhases b g ru uu rolesAfter channelsAfter used bchans succ
      st).clearOps = st.ops := by
  unfold afterClearPhases
  cases succ <;> rfl

theorem clearRoleChecks_all_id_ne (g : Int) (item : GuildItem)
    (h : (clearRoleChecks g).all (fun c => c item) = true) : item.id ≠ g := by
  simp [clearRoleChecks] at h
  exact h.1

theorem orphanRoleChecks_all_id_ne (g : Int) (used : List Int)
    (item : GuildItem)
    (h : ([fun r => !(used.contains r.id), fun r => !(r.id == g)] :
      List (GuildItem → Bool)).all (fun c => c item) = true) : item.id ≠ g := by
  simp at h
  exact h.2

theorem afterClearPhases_orphanOps_sound (b : String) (g : Int)
    (ru uu : Option Int) (rolesAfter channelsAfter : List GuildItem)
    (used bchans : List Int) (succ : Bool) (st : DelState) (op : Op)
    (h : op ∈ (afterClearPhases b g ru uu rolesAfter channelsAfter used
      bchans succ st).orphanOps) :
    (∃ item ∈ rolesAfter, op = Op.delRole item.id ∧ ru ≠ some item.id ∧
      uu ≠ some item.id ∧
      ([fun r => !(used.contains r.id), fun r => !(r.id == g)] :
        List (GuildItem → Bool)).all (fun c => c item) = true) ∨
    (∃ item ∈ channelsAfter, op = Op.delChannel item.id ∧ ru ≠ some item.id ∧
      uu ≠ some item.id) := by
  cases succ with
  | false =>
    simp only [afterClearPhases, Bool.false_eq_true, if_false] at h
    rcases delete_all_ops_sound b g ru uu
        [fun r => !(used.contains r.id), fun r => !(r.id == g)] Op.delRole
        rolesAfter { refs := st.refs, ops := [] } op h with
      h' | ⟨it, hit, heq, h2, h3, h4⟩
    · exact absurd h' (List.not_mem_nil op)
    · exact Or.inl ⟨it, hit, heq, h2, h3, h4⟩
  | true =>
    simp only [afterClearPhases, if_true] at h
    rcases delete_all_ops_sound b g ru uu
        [fun c => !(bchans.contains c.id)] Op.delChannel channelsAfter _ op h
      with h' | ⟨it, hit, heq, h2, h3, _⟩
    · rcases delete_all_ops_sound b g ru uu
          [fun r => !(used.contains r.id), fun r => !(r.id == g)] Op.delRole
          rolesAfter { refs := st.refs, ops := [] } op h' with
        h'' | ⟨it, hit, heq, h2, h3, h4⟩
      · exact absurd h'' (List.not_mem_nil op)
      · exact Or.inl ⟨it, hit, heq, h2, h3, h4⟩
    · exact Or.inr ⟨it, hit, heq, h2, h3⟩

theorem backupLoadClear_sound (b : String) (g : Int) (ru uu : Option Int)
    (roles channels rolesAfter channelsAfter : List GuildItem)
    (refs : RefTable) (used bchans : List Int) (succ : Bool) (op : Op) :
    (op ∈ (backupLoadClear b g ru uu roles channels refs
        (afterClearPhases b g ru uu rolesAfter channelsAfter used bchans
          succ)).clearOps →
      (∃ item ∈ roles, op = Op.delRole item.id ∧ ru ≠ some item.id ∧
        uu ≠ some item.id ∧
        (clearRoleChecks g).all (fun c => c item) = true) ∨
      (∃ item ∈ channels, op = Op.delChannel item.id ∧ ru ≠ some item.id ∧
        uu ≠ some item.id)) ∧
    (op ∈ (backupLoadClear b g ru uu roles channels refs
        (afterClearPhases b g ru uu rolesAfter channelsAfter used bchans
          succ)).orphanOps →
      (∃ item ∈ rolesAfter, op = Op.delRole item.id ∧ ru ≠ some item.id ∧
        uu ≠ some item.id ∧
        ([fun r => !(used.contains r.id), fun r => !(r.id == g)] :
          List (GuildItem → Bool)).all (fun c => c item) = true) ∨
      (∃ item ∈ channelsAfter, op = Op.delChannel item.id ∧
        ru ≠ some item.id ∧ uu ≠ some item.id)) := by
  rcases hrole : delete_all b g ru uu (clearRoleChecks g) Op.delRole
    { refs := refs, ops := [] } roles with ⟨st1, rfail⟩
  have hrolesound : ∀ o ∈ st1.ops,
      (∃ item ∈ roles, o = Op.delRole item.id ∧ ru ≠ some item.id ∧
        uu ≠ some item.id ∧
        (clearRoleChecks g).all (fun c => c item) = true) := by
    intro o ho
    have ho' : o ∈ (delete_all b g ru uu (clearRoleChecks g) Op.delRole
        { refs := refs, ops := [] } roles).1.ops := by
      rw [hrole]; exact ho
    rcases delete_all_ops_sound b g ru uu (clearRoleChecks g) Op.delRole
        roles { refs := refs, ops := [] } o ho' with h' | hx
    · exact absurd h' (List.not_mem_nil o)
    · exact hx
  cases rfail with
  | some pr =>
    obtain ⟨i, e⟩ := pr
    constructor
    · intro h
      simp only [backupLoadClear, hrole] at h
      exact Or.inl (hrolesound op h)
    · intro h
      simp only [backupLoadClear, hrole] at h
      exact absurd h (List.not_mem_nil op)
  | none =>
    rcases hchan : delete_all b g ru uu [] Op.delChannel st1 channels with
      ⟨st2, cfail⟩
    have hchansound : ∀ o ∈ st2.ops,
        (∃ item ∈ roles, o = Op.delRole item.id ∧ ru ≠ some item.id ∧
          uu ≠ some item.id ∧
          (clearRoleChecks g).all (fun c => c item) = true) ∨
        (∃ item ∈ channels, o = Op.delChannel item.id ∧ ru ≠ some item.id ∧
          uu ≠ some item.id) := by
      intro o ho
      have ho' : o ∈ (delete_all b g ru uu [] Op.delChannel st1
          channels).1.ops := by
        rw [hchan]; exact ho
      rcases delete_all_ops_sound b g ru uu [] Op.delChannel channels st1 o
          ho' with h' | ⟨it, hit, heq, h2, h3, _⟩
      · exact Or.inl (hrolesound o h')
      · exact Or.inr ⟨it, hit, heq, h2, h3⟩
    cases cfail with
    | some pr =>
      obtain ⟨i, e⟩ := pr
      constructor
      · intro h
        simp only [backupLoadClear, hrole, hchan] at h
        exact hchansound op h
      · intro h
        simp only [backupLoadClear, hrole, hchan] at h
        exact absurd h (List.not_mem_nil op)
    | none =>
      constructor
      · intro h
        simp only [backupLoadClear, hrole, hchan,
          afterClearPhases_clearOps] at h
        exact hchansound op h
      · intro h
        simp only [backupLoadClear, hrole, hchan] at h
        exact afterClearPhases_orphanOps_sound b g ru uu rolesAfter
          channelsAfter used bchans succ st2 op h

/-- C3: over every combination of the clear flag and phase outcomes, the
target's default role (`guild.id`) is never passed to a delete call in the
clear pass or the orphan cleanup, and when the target has rules/updates
channels configured (`rules_id = some r`, `updates_id = some u`) those two
channels are never passed to a delete call either. -/
theorem protected_resources_never_deleted :
    (∀ (b : String) (g : Int) (ru uu : Option Int) (clearGuild : Bool)
      (roles channels rolesAfter channelsAfter : List GuildItem)
      (refs : RefTable) (used bchans : List Int) (succ : Bool),
      Op.delRole g ∉ (backupLoadDeletions b g ru uu clearGuild roles channels
        rolesAfter channelsAfter refs used bchans succ).clearOps ∧
      Op.delRole g ∉ (backupLoadDeletions b g ru uu clearGuild roles channels
        rolesAfter channelsAfter refs used bchans succ).orphanOps) ∧
    (∀ (b : String) (g r u : Int) (clearGuild : Bool)
      (roles channels rolesAfter channelsAfter : List GuildItem)
      (refs : RefTable) (used bchans : List Int) (succ : Bool),
      (Op.delChannel r ∉ (backupLoadDeletions b g (some r) (some u) clearGuild
          roles channels rolesAfter channelsAfter refs used bchans
          succ).clearOps ∧
        Op.delChannel r ∉ (backupLoadDeletions b g (some r) (some u) clearGuild
          roles channels rolesAfter channelsAfter refs used bchans
          succ).orphanOps) ∧
      (Op.delChannel u ∉ (backupLoadDeletions b g (some r) (some u) clearGuild
          roles channels rolesAfter channelsAfter refs used bchans
          succ).clearOps ∧
        Op.delChannel u ∉ (backupLoadDeletions b g (some r) (some u) clearGuild
          roles channels rolesAfter channelsAfter refs used bchans
          succ).orphanOps)) := by
  constructor
  · intro b g ru uu clearGuild roles channels rolesAfter channelsAfter refs
      used bchans succ
    cases clearGuild with
    | false =>
      constructor
      · intro h
        simp only [backupLoadDeletions, Bool.false_eq_true, if_false] at h
        rw [afterClearPhases_clearOps] at h
        exact absurd h (List.not_mem_nil _)
      · intro h
        simp only [backupLoadDeletions, Bool.false_eq_true, if_false] at h
        rcases afterClearPhases_orphanOps_sound b g ru uu rolesAfter
            channelsAfter used bchans succ { refs := refs, ops := [] }
            (Op.delRole g) h with
          ⟨it, _, heq, _, _, h4⟩ | ⟨it, _, heq, _, _⟩
        · injection heq with h5
          exact orphanRoleChecks_all_id_ne g used it h4 h5.symm
        · exact Op.noConfusion heq
    | true =>
      constructor
      · intro h
        simp only [backupLoadDeletions, if_true] at h
        rcases (backupLoadClear_sound b g ru uu roles channels rolesAfter
            channelsAfter refs used bchans succ (Op.delRole g)).1 h with
          ⟨it, _, heq, _, _, h4⟩ | ⟨it, _, heq, _, _⟩
        · injection heq with h5
          exact clearRoleChecks_all_id_ne g it h4 h5.symm
        · exact Op.noConfusion heq
      · intro h
        simp only [backupLoadDeletions, if_true] at h
        rcases (backupLoadClear_sound b g ru uu roles channels rolesAfter
            channelsAfter refs used bchans succ (Op.delRole g)).2 h with
          ⟨it, _, heq, _, _, h4⟩ | ⟨it, _, heq, _, _⟩
        · injection heq with h5
          exact orphanRoleChecks_all_id_ne g used it h4 h5.symm
        · exact Op.noConfusion heq
  · intro b g r u clearGuild roles channels rolesAfter channelsAfter refs
      used bchans succ
    cases clearGuild with
    | false =>
      refine ⟨⟨?_, ?_⟩, ⟨?_, ?_⟩⟩ <;> intro h <;>
        simp only [backupLoadDeletions, Bool.false_eq_true, if_false] at h
      · rw [afterClearPhases_clearOps] at h
        exact absurd h (List.not_mem_nil _)
      · rcases afterClearPhases_orphanOps_sound b g (some r) (some u)
            rolesAfter channelsAfter used bchans succ
            { refs := refs, ops := [] } (Op.delChannel r) h with
          ⟨it, _, heq, _, _, _⟩ | ⟨it, _, heq, h2, _⟩
        · exact Op.noConfusion heq
        · injection heq with h5
          exact h2 (by rw [h5])
      · rw [afterClearPhases_clearOps] at h
        exact absurd h (List.not_mem_nil _)
      · rcases afterClearPhases_orphanOps_sound b g (some r) (some u)
            rolesAfter channelsAfter used bchans succ
            { refs := refs, ops := [] } (Op.delChannel u) h with
          ⟨it, _, heq, _, _, _⟩ | ⟨it, _, heq, _, h3⟩
        · exact Op.noConfusion heq
        · injection heq with h5
          exact h3 (by rw [h5])
    | true =>
      refine ⟨⟨?_, ?_⟩, ⟨?_, ?_⟩⟩ <;> intro h <;>
        simp only [backupLoadDeletions, if_true] at h
      · rcases (backupLoadClear_sound b g (some r) (some u) roles channels
            rolesAfter channelsAfter refs used bchans succ
            (Op.delChannel r)).1 h with
          ⟨it, _, heq, _, _, _⟩ | ⟨it, _, heq, h2, _⟩
        · exact Op.noConfusion heq
        · injection heq with h5
          exact h2 (by rw [h5])
      · rcases (backupLoadClear_sound b g (some r) (some u) roles channels
            rolesAfter channelsAfter refs used bchans succ
            (Op.delChannel r)).2 h with
          ⟨it, _, heq, _, _, _⟩ | ⟨it, _, heq, h2, _⟩
        · exact Op.noConfusion heq
        · injection heq with h5
          exact h2 (by rw [h5])
      · rcases (backupLoadClear_sound b g (some r) (some u) roles channels
            rolesAfter channelsAfter refs used bchans succ
            (Op.delChannel u)).1 h with
          ⟨it, _, heq, _, _, _⟩ | ⟨it, _, heq, _, h3⟩
        · exact Op.noConfusion heq
        · injection heq with h5
          exact h3 (by rw [h5])
      · rcases (backupLoadClear_sound b g (some r) (some u) roles channels
            rolesAfter channelsAfter refs used bchans succ
            (Op.delChannel u)).2 h with
          ⟨it, _, heq, _, _, _⟩ | ⟨it, _, heq, _, h3⟩
        · exact Op.noConfusion heq
        · injection heq with h5
          exact h3 (by rw [h5])

/-- Witness for C3 at a concrete restore whose clear phase runs on a
deletable failing role. -/
theorem protected_resources_never_deleted_witness :
    Op.delRole 1 ∉ (backupLoadDeletions "b" 1 (some 70) (some 71) true
      [failRole5] [] [] [] [] [] [] true).clearOps ∧
    Op.delChannel 70 ∉ (backupLoadDeletions "b" 1 (some 70) (some 71) true
      [failRole5] [] [] [] [] [] [] true).clearOps ∧
    Op.delChannel 71 ∉ (backupLoadDeletions "b" 1 (some 70) (some 71) true
      [failRole5] [] [] [] [] [] [] true).orphanOps :=
  ⟨(protected_resources_never_deleted.1 "b" 1 (some 70) (some 71) true
      [failRole5] [] [] [] [] [] [] true).1,
   ((protected_resources_never_deleted.2 "b" 1 70 71 true
      [failRole5] [] [] [] [] [] [] true).1).1,
   ((protected_resources_never_deleted.2 "b" 1 70 71 true
      [failRole5] [] [] [] [] [] [] true).2).2⟩
